import Mathlib

/-
Verification of the session-scoped job orchestration subsystem of
KBTU_registrator_Unix (src/app/services/sessions.py, src/app/services/agent_runner.py,
src/app/workers/agent_jobs.py, src/app/api/routes.py).

The Python code is shallowly embedded: the in-memory session store
(agent_sessions dict) becomes an association list, the Redis backing becomes an
association list of hashes, subprocess behaviour (emitted stdout lines, exit
code, exceptions) is an explicit oracle datatype, and wall-clock timestamps are
explicit string parameters.  All functions are executable.
-/

namespace KBTU

/-! ## List helpers: ring-buffer trimming

Python's `logs[-n:]` slice (keep the last `n` elements) is `takeLast n`.
-/

/-- Python `l[-n:]` for nonnegative `n`: the last `n` elements of `l`
(all of `l` when `l.length ≤ n`). -/
def takeLast (n : Nat) (l : List α) : List α :=
  l.drop (l.length - n)

/-- One bounded append step, as written in `sessions.append_log` (in-memory
branch) and in the relay loops of `agent_runner`: append the message, and if
the buffer now exceeds the bound, keep only the last `bound` lines. -/
def appendTrim (bound : Nat) (logs : List String) (msg : String) : List String :=
  if (logs ++ [msg]).length > bound then takeLast bound (logs ++ [msg])
  else logs ++ [msg]

theorem takeLast_of_length_le {l : List α} {n : Nat} (h : l.length ≤ n) :
    takeLast n l = l := by
  simp [takeLast, Nat.sub_eq_zero_of_le h]

theorem length_takeLast (n : Nat) (l : List α) :
    (takeLast n l).length = min l.length n := by
  simp [takeLast]
  omega

theorem takeLast_takeLast_append (n : Nat) (l y : List α) :
    takeLast n (takeLast n l ++ y) = takeLast n (l ++ y) := by
  simp only [takeLast, List.length_append, List.length_drop,
    List.drop_append_eq_append_drop, List.drop_drop]
  have h1 : l.length - n + (l.length - (l.length - n) + y.length - n)
      = l.length + y.length - n := by omega
  have h2 : l.length - (l.length - n) + y.length - n - (l.length - (l.length - n))
      = l.length + y.length - n - l.length := by omega
  rw [h1, h2]

theorem appendTrim_eq_takeLast (bound : Nat) (logs : List String) (msg : String) :
    appendTrim bound logs msg = takeLast bound (logs ++ [msg]) := by
  unfold appendTrim
  by_cases h : (logs ++ [msg]).length > bound
  · rw [if_pos h]
  · rw [if_neg h, takeLast_of_length_le (Nat.le_of_not_lt h)]

theorem length_appendTrim_le (bound : Nat) (logs : List String) (msg : String) :
    (appendTrim bound logs msg).length ≤ max (logs.length + 1) bound := by
  rw [appendTrim_eq_takeLast, length_takeLast]
  simp

/-- Ring-buffer law: folding bounded appends over a message list leaves exactly
the most recent `bound` lines, in their original order. -/
theorem foldl_appendTrim (bound : Nat) (msgs : List String) :
    ∀ init : List String, init.length ≤ bound →
      msgs.foldl (appendTrim bound) init = takeLast bound (init ++ msgs) := by
  induction msgs with
  | nil => intro init h; simp [takeLast_of_length_le h]
  | cons m rest ih =>
    intro init h
    have hlen : (appendTrim bound init m).length ≤ bound := by
      rw [appendTrim_eq_takeLast, length_takeLast]; omega
    calc (m :: rest).foldl (appendTrim bound) init
        = rest.foldl (appendTrim bound) (appendTrim bound init m) := rfl
      _ = takeLast bound (appendTrim bound init m ++ rest) := ih _ hlen
      _ = takeLast bound (takeLast bound (init ++ [m]) ++ rest) := by
            rw [appendTrim_eq_takeLast]
      _ = takeLast bound ((init ++ [m]) ++ rest) := takeLast_takeLast_append ..
      _ = takeLast bound (init ++ m :: rest) := by simp

/-! ## Session records and the in-memory store

The Python dict `agent_sessions: Dict[str, Dict[str, Any]]` is modelled as an
association list from session id to a typed record.  The dynamically-typed
Python session dict uses: bools for `running` / `stop_requested`, `None` or a
string for `current_lesson` / `last_run`, a string for `mode` / `created_at` /
`job_id`, a Popen object or `None` (or an absent key) for `process`, and an
int pid or the empty string for `process_pid` (the empty string and an absent
key are both modelled as `none`).  The live Popen handle is modelled by its
pid. -/

structure Session where
  running : Bool
  current_lesson : Option String
  mode : String
  last_run : Option String
  created_at : String
  job_id : String
  stop_requested : Bool
  logs : List String
  process : Option Nat
  process_pid : Option Nat
deriving DecidableEq

abbrev AgentSessions := List (String × Session)

/-- Python `agent_sessions.get(session_id)`. -/
def lookupSession (store : AgentSessions) (sid : String) : Option Session :=
  (store.find? (fun p => p.1 == sid)).map (fun p => p.2)

/-- Python dict assignment `agent_sessions[sid] = s` (also models in-place
mutation of a fetched session object). -/
def dictSet (store : AgentSessions) (sid : String) (s : Session) : AgentSessions :=
  (sid, s) :: store.eraseP (fun p => p.1 == sid)

/-- Fetch the session and, when present, replace it by `f` applied to it; a
missing id leaves the store untouched.  This is the shape shared by
`update_session`, `append_log` and `clear_logs` in the in-memory branch. -/
def modifySession (store : AgentSessions) (sid : String) (f : Session → Session) :
    AgentSessions :=
  match lookupSession store sid with
  | none => store
  | some s => dictSet store sid (f s)

/-- sessions.LOG_LIMIT. -/
def LOG_LIMIT : Nat := 500

/-- sessions._running_count, in-memory branch:
`sum(1 for session in agent_sessions.values() if session.get("running"))`. -/
def runningCount (store : AgentSessions) : Nat :=
  (store.filter (fun p => p.2.running)).length

/-- The fresh session dict built by sessions.create_session (the in-memory
branch additionally sets `logs = []`; the `process` / `process_pid` keys are
absent, i.e. `none`). -/
def newSessionData (now mode : String) : Session :=
  { running := true
    current_lesson := none
    mode := mode
    last_run := none
    created_at := now
    job_id := ""
    stop_requested := false
    logs := []
    process := none
    process_pid := none }

/-- sessions.create_session, in-memory branch.  The whole body runs under
`sessions_lock`, so one call is one atomic step of this model; the uuid is the
`sid` parameter, `datetime.now()` is the `now` parameter.  Raising
`HTTPException(503)` is modelled as `.error 503`. -/
def createSession (limit : Nat) (sid now mode : String) (store : AgentSessions) :
    Except Nat (String × AgentSessions) :=
  if runningCount store ≥ limit then .error 503
  else .ok (sid, dictSet store sid (newSessionData now mode))

/-- A sequence of create_session calls (each argument triple is one call's
uuid, timestamp and mode); a rejected call leaves the store unchanged. -/
def applyCreates (limit : Nat) (calls : List (String × String × String))
    (store : AgentSessions) : AgentSessions :=
  calls.foldl
    (fun st c =>
      match createSession limit c.1 c.2.1 c.2.2 st with
      | .ok r => r.2
      | .error _ => st)
    store

theorem runningCount_dictSet_le (store : AgentSessions) (sid : String) (s : Session) :
    runningCount (dictSet store sid s) ≤ runningCount store + 1 := by
  have hsub : List.Sublist
      ((store.eraseP (fun p => p.1 == sid)).filter (fun p => p.2.running))
      (store.filter (fun p => p.2.running)) :=
    List.Sublist.filter _ (List.eraseP_sublist store)
  have := hsub.length_le
  by_cases hr : s.running <;>
    simp [runningCount, dictSet, List.filter_cons, hr] <;> omega

theorem runningCount_createSession_le {limit : Nat} {store : AgentSessions}
    (h : runningCount store ≤ limit) (sid now mode : String) :
    runningCount
      (match createSession limit sid now mode store with
       | .ok r => r.2
       | .error _ => store) ≤ limit := by
  by_cases hc : runningCount store ≥ limit
  · simp [createSession, hc]; omega
  · have := runningCount_dictSet_le store sid (newSessionData now mode)
    simp [createSession, hc]
    omega

/-! ## Store operations (in-memory branch of sessions.py)

`update_session` takes keyword arguments; the set of fields actually passed at
the existing call sites is fixed, so the kwargs dict is modelled as a record of
optional fields (`none` = keyword not passed).  For the two fields whose Python
values may be `None` or absent-vs-empty, the patch value is itself an option:
`some none` models passing `None` (or, for `process_pid`, the empty string). -/

structure SessionPatch where
  running : Option Bool
  stop_requested : Option Bool
  mode : Option String
  current_lesson : Option (Option String)
  last_run : Option (Option String)
  job_id : Option String
  process_pid : Option (Option Nat)
deriving DecidableEq

def emptyPatch : SessionPatch :=
  { running := none
    stop_requested := none
    mode := none
    current_lesson := none
    last_run := none
    job_id := none
    process_pid := none }

/-- Python `session.update(fields)`. -/
def applyPatch (p : SessionPatch) (s : Session) : Session :=
  { s with
    running := p.running.getD s.running
    stop_requested := p.stop_requested.getD s.stop_requested
    mode := p.mode.getD s.mode
    current_lesson := p.current_lesson.getD s.current_lesson
    last_run := p.last_run.getD s.last_run
    job_id := p.job_id.getD s.job_id
    process_pid := p.process_pid.getD s.process_pid }

/-- sessions.update_session, in-memory branch: empty id returns immediately; a
missing session is left alone; otherwise the fields are merged in place. -/
def updateSession (store : AgentSessions) (sid : String) (p : SessionPatch) :
    AgentSessions :=
  if sid = "" then store
  else modifySession store sid (applyPatch p)

/-- sessions.append_log, in-memory branch: append and trim to LOG_LIMIT. -/
def appendLogMem (store : AgentSessions) (sid : String) (msg : String) :
    AgentSessions :=
  modifySession store sid
    (fun s => { s with logs := appendTrim LOG_LIMIT s.logs msg })

/-- sessions.clear_logs, in-memory branch. -/
def clearLogsMem (store : AgentSessions) (sid : String) : AgentSessions :=
  modifySession store sid (fun s => { s with logs := [] })

/-- sessions.get_logs, in-memory branch. -/
def getLogsMem (store : AgentSessions) (sid : String) : List String :=
  if sid = "" then []
  else
    match lookupSession store sid with
    | none => []
    | some s => s.logs

/-- sessions.mark_session_finished: one update_session call setting
`running=False`, `stop_requested=False`, `last_run=now` (the Redis branch
additionally removes the id from the running set). -/
def markSessionFinished (store : AgentSessions) (sid : String) (now : String) :
    AgentSessions :=
  updateSession store sid
    { emptyPatch with
      running := some false
      stop_requested := some false
      last_run := some (some now) }

/-- sessions.request_stop. -/
def requestStop (store : AgentSessions) (sid : String) : AgentSessions :=
  updateSession store sid { emptyPatch with stop_requested := some true }

/-- sessions.set_job_id. -/
def setJobId (store : AgentSessions) (sid : String) (jid : String) : AgentSessions :=
  updateSession store sid { emptyPatch with job_id := some jid }

/-- sessions.is_stop_requested: `bool(get_session(sid).get("stop_requested"))`
(an absent session gives the empty dict, hence `false`). -/
def isStopRequested (store : AgentSessions) (sid : String) : Bool :=
  if sid = "" then false
  else
    match lookupSession store sid with
    | none => false
    | some s => s.stop_requested

/-! ## Status and log routes (src/app/api/routes.py, in-memory reads) -/

structure AgentStatus where
  running : Bool
  current_lesson : Option String
  last_run : Option String
  log_count : Nat
  session_id : Option String
deriving DecidableEq

/-- routes.get_agent_status. -/
def getAgentStatus (store : AgentSessions) (sid : String) : AgentStatus :=
  if sid = "" then
    { running := false, current_lesson := none, last_run := none
      log_count := 0, session_id := none }
  else
    match lookupSession store sid with
    | none =>
        { running := false, current_lesson := none, last_run := none
          log_count := 0, session_id := some sid }
    | some s =>
        { running := s.running, current_lesson := s.current_lesson
          last_run := s.last_run, log_count := s.logs.length
          session_id := some sid }

/-- routes.get_agent_logs. -/
def getAgentLogs (store : AgentSessions) (sid : String) : List String :=
  if sid = "" then []
  else
    match lookupSession store sid with
    | none => []
    | some s => s.logs

/-! ## Lookup lemmas -/

theorem lookupSession_dictSet (store : AgentSessions) (sid : String) (s : Session) :
    lookupSession (dictSet store sid s) sid = some s := by
  simp [lookupSession, dictSet, List.find?_cons]

theorem lookupSession_modifySession (store : AgentSessions) (sid : String)
    (f : Session → Session) :
    lookupSession (modifySession store sid f) sid
      = (lookupSession store sid).map f := by
  unfold modifySession
  cases h : lookupSession store sid with
  | none => simp [h]
  | some s => simp [lookupSession_dictSet]

theorem lookupSession_updateSession (store : AgentSessions) (sid : String)
    (p : SessionPatch) (h : sid ≠ "") :
    lookupSession (updateSession store sid p) sid
      = (lookupSession store sid).map (applyPatch p) := by
  simp [updateSession, h, lookupSession_modifySession]

theorem lookupSession_appendLogMem (store : AgentSessions) (sid : String)
    (msg : String) :
    lookupSession (appendLogMem store sid msg) sid
      = (lookupSession store sid).map
          (fun s => { s with logs := appendTrim LOG_LIMIT s.logs msg }) := by
  simp [appendLogMem, lookupSession_modifySession]

/-! ## Log line texts

Timestamps (`datetime.now().strftime`) are explicit parameters. -/

def pythonBoolStr (b : Bool) : String := if b then "True" else "False"

def startLineSingle (ts lesson : String) : String :=
  "[" ++ ts ++ "] Starting agent for lesson " ++ lesson ++ "..."

def stoppedByUserLine (ts : String) : String :=
  "[" ++ ts ++ "] ⛔ Agent stopped by user"

def finishedLine (ts : String) (code : Int) : String :=
  "[" ++ ts ++ "] Agent finished with exit code " ++ toString code

def errorLine (ts err : String) : String :=
  "[" ++ ts ++ "] Error: " ++ err

def stoppingLine (ts : String) : String :=
  "[" ++ ts ++ "] ⏹️ Stopping agent..."

def forceKilledLine (ts : String) : String :=
  "[" ++ ts ++ "] Force killed agent"

def noIdsLine (ts : String) : String :=
  "[" ++ ts ++ "] ❌ No valid lesson IDs provided"

def batchHeaderLine (ts : String) (n : Nat) : String :=
  "[" ++ ts ++ "] 🚀 Starting BATCH mode: " ++ toString n
    ++ " lessons (one browser session)"

def batchIdsLine (ts : String) (ids : List String) : String :=
  "[" ++ ts ++ "] IDs: " ++ String.intercalate ", " ids

def batchSkipLine (ts : String) (skip : Bool) : String :=
  "[" ++ ts ++ "] Skip video: " ++ pythonBoolStr skip

def batchStoppedLine (ts : String) : String :=
  "[" ++ ts ++ "] ⛔ Batch stopped by user"

def batchCompleteLine (ts : String) : String :=
  "[" ++ ts ++ "] 🏁 Batch complete"

def batchErrorLine (ts err : String) : String :=
  "[" ++ ts ++ "] ❌ Error: " ++ err

/-! ## Worker process oracle

One run of the opaque worker subprocess, as observed by the supervision loop:
either `Popen` itself raises, or the process emits a list of (already
newline-stripped, nonempty) stdout lines and exits with a code, or it emits
some lines and then an exception is raised inside the supervision loop.
`pollExit i = true` models `process.poll() is not None` becoming true at relay
iteration `i` (the process exited while output was still queued), which makes
the loop break early and drop the remaining lines. -/

inductive WorkerRun where
  | spawnFail (err : String)
  | run (lines : List String) (code : Int)
  | runRaise (lines : List String) (err : String)
deriving DecidableEq

/-! ## Embedded runner (src/app/services/agent_runner.py) -/

/-- The relay loop of agent_runner.run_single_agent (lines 52-58): append each
nonempty line, trimming the buffer to the last 200 lines, and break early when
the poll check fires. -/
def relaySingle (pollExit : Nat → Bool) : List String → Nat → List String → List String
  | [], _, logs => logs
  | line :: rest, i, logs =>
    let logs' := if line = "" then logs else appendTrim 200 logs line
    if pollExit i then logs'
    else relaySingle pollExit rest (i + 1) logs'

/-- The try/except body of run_single_agent: per-run reset, start
announcement, spawn, relay, exit-code classification (codes -9 and -15 are
user-initiated stops), with any exception recorded as an error log line. -/
def singleBody (lesson : String) (b : WorkerRun) (pollExit : Nat → Bool)
    (pid : Nat) (ts : String) (s : Session) : Session :=
  let s1 := { s with running := true, current_lesson := some lesson,
                     mode := "single", logs := ([] : List String), process := none }
  let s2 := { s1 with logs := s1.logs ++ [startLineSingle ts lesson] }
  match b with
  | .spawnFail err => { s2 with logs := s2.logs ++ [errorLine ts err] }
  | .run lines code =>
    let s3 := { s2 with process := some pid }
    let s4 := { s3 with logs := relaySingle pollExit lines 0 s3.logs }
    { s4 with logs := s4.logs ++
        [if code = -9 ∨ code = -15 then stoppedByUserLine ts else finishedLine ts code] }
  | .runRaise lines err =>
    let s3 := { s2 with process := some pid }
    let s4 := { s3 with logs := relaySingle pollExit lines 0 s3.logs }
    { s4 with logs := s4.logs ++ [errorLine ts err] }

/-- The `finally` block shared by run_single_agent and run_batch_agent
(agent_runner lines 74-78 and 160-164). -/
def finalizeRun (now : String) (s : Session) : Session :=
  { s with running := false, process := none, last_run := some now }

/-- agent_runner.run_single_agent.  A missing session returns at once; the
`finally` block runs on every other path. -/
def runSingleAgent (store : AgentSessions) (sid lesson : String) (b : WorkerRun)
    (pollExit : Nat → Bool) (pid : Nat) (tsLog tsFin : String) : AgentSessions :=
  match lookupSession store sid with
  | none => store
  | some s =>
      dictSet store sid (finalizeRun tsFin (singleBody lesson b pollExit pid tsLog s))

/-- The relay loop of agent_runner.run_batch_agent (lines 128-144): like the
single relay but bounded at 500 lines, and a line matching the
"Processing lesson" pattern first updates `current_lesson`.  `extractLabel`
abstracts the regex extraction of lines 131-138: `some lab` when the line
matches and yields the new label. -/
def relayBatch (extractLabel : String → Option String) (pollExit : Nat → Bool) :
    List String → Nat → Session → Session
  | [], _, s => s
  | line :: rest, i, s =>
    let s' :=
      if line = "" then s
      else
        let s1 :=
          match extractLabel line with
          | some lab => { s with current_lesson := some lab }
          | none => s
        { s1 with logs := appendTrim 500 s1.logs line }
    if pollExit i then s'
    else relayBatch extractLabel pollExit rest (i + 1) s'

/-- The try/except body of run_batch_agent (called with a nonempty id list):
reset, three header lines, spawn, relay, handle cleared after wait (line 148),
exit-code classification. -/
def batchBody (ids : List String) (skip : Bool) (b : WorkerRun)
    (extractLabel : String → Option String) (pollExit : Nat → Bool)
    (pid : Nat) (ts : String) (s : Session) : Session :=
  let s1 := { s with running := true,
                     current_lesson := some ("Batch: " ++ toString ids.length
                       ++ " lessons (" ++ ids.headD "" ++ "...)"),
                     mode := "batch", logs := ([] : List String), process := none }
  let s2 := { s1 with logs := s1.logs ++ [batchHeaderLine ts ids.length,
                        batchIdsLine ts ids, batchSkipLine ts skip] }
  match b with
  | .spawnFail err => { s2 with logs := s2.logs ++ [batchErrorLine ts err] }
  | .run lines code =>
    let s3 := relayBatch extractLabel pollExit lines 0 { s2 with process := some pid }
    let s4 := { s3 with process := none }
    { s4 with logs := s4.logs ++
        [if code = -9 ∨ code = -15 then batchStoppedLine ts else batchCompleteLine ts] }
  | .runRaise lines err =>
    let s3 := relayBatch extractLabel pollExit lines 0 { s2 with process := some pid }
    { s3 with logs := s3.logs ++ [batchErrorLine ts err] }

/-- Python str.split(",") for the one-character separator, written over the
character list so that it evaluates in the kernel (an empty string splits to
one empty piece, as in Python). -/
def splitOnChar (sep : Char) : List Char → List (List Char)
  | [] => [[]]
  | c :: rest =>
    if c = sep then [] :: splitOnChar sep rest
    else
      match splitOnChar sep rest with
      | [] => [[c]]
      | h :: t => (c :: h) :: t

def pySplitComma (s : String) : List String :=
  (splitOnChar ',' s.data).map (fun cs => String.mk cs)

/-- Python str.strip(): drop leading and trailing whitespace. -/
def pyStrip (s : String) : String :=
  String.mk (((s.data.dropWhile Char.isWhitespace).reverse.dropWhile
    Char.isWhitespace).reverse)

/-- The id parsing shared by run_batch_agent and run_batch_agent_job:
`[item.strip() for item in lesson_ids.split(",") if item.strip()]`. -/
def parseLessonIds (lessonIds : String) : List String :=
  ((pySplitComma lessonIds).map pyStrip).filter (fun x => x ≠ "")

/-- agent_runner.run_batch_agent.  When the parsed id list is empty the
function appends a rejection line, sets `running = False` and returns before
the try/finally, so no finalization happens on that path. -/
def runBatchAgent (store : AgentSessions) (sid lessonIds : String) (skip : Bool)
    (b : WorkerRun) (extractLabel : String → Option String) (pollExit : Nat → Bool)
    (pid : Nat) (tsLog tsFin : String) : AgentSessions :=
  match lookupSession store sid with
  | none => store
  | some s =>
    let ids := parseLessonIds lessonIds
    if ids = [] then
      dictSet store sid { s with logs := s.logs ++ [noIdsLine tsLog], running := false }
    else
      dictSet store sid
        (finalizeRun tsFin (batchBody ids skip b extractLabel pollExit pid tsLog s))

/-! ## Stop (agent_runner.stop_agent_by_session)

The externally observable actions of one stop call are recorded as an event
trace, in program order. -/

inductive StopEvent where
  | setStopRequested
  | logAppend (msg : String)
  | terminate
  | graceSleep
  | kill
deriving DecidableEq

/-- agent_runner.stop_agent_by_session, run under `sessions_lock`.
`aliveAfterGrace` models `process.poll() is None` after the 2-second sleep;
`termRaises` models `process.terminate()` raising (re-raised as a 500).
Returns the response message, the updated store and the event trace, or the
HTTP error status. -/
def stopAgentBySession (store : AgentSessions) (sid : String)
    (aliveAfterGrace termRaises : Bool) (ts1 ts2 : String) :
    Except Nat (String × AgentSessions × List StopEvent) :=
  match lookupSession store sid with
  | none => .error 404
  | some s =>
    if s.running = false then .ok ("Agent stopped", store, [])
    else
      match s.process with
      | none =>
        .ok ("Agent stopped",
          dictSet store sid { s with running := false, process := none }, [])
      | some _ =>
        if termRaises then .error 500
        else
          let s1 := { s with logs := s.logs ++ [stoppingLine ts1] }
          let evs1 := [StopEvent.terminate, StopEvent.logAppend (stoppingLine ts1),
                       StopEvent.graceSleep]
          let s2 := if aliveAfterGrace
            then { s1 with logs := s1.logs ++ [forceKilledLine ts2] } else s1
          let evs2 := if aliveAfterGrace
            then evs1 ++ [StopEvent.kill, StopEvent.logAppend (forceKilledLine ts2)]
            else evs1
          .ok ("Agent stopped",
            dictSet store sid { s2 with running := false, process := none }, evs2)

/-! ## Queue job (src/app/workers/agent_jobs.py, in-memory store backing)

`externalStop i = true` models a concurrent `request_stop` call landing in the
store just before relay iteration `i`. -/

/-- The relay loop of agent_jobs.run_single_agent_job (lines 59-67): check the
cooperative stop flag first (append the stopping line, terminate and break
when set), then append the line, then the poll check.  Returns the store and
whether the loop broke on the stop flag. -/
def jobRelay (sid : String) (externalStop pollExit : Nat → Bool) (tsStop : String) :
    List String → Nat → AgentSessions → AgentSessions × Bool
  | [], _, st => (st, false)
  | line :: rest, i, st =>
    let st1 := if externalStop i then requestStop st sid else st
    if isStopRequested st1 sid then
      (appendLogMem st1 sid (stoppingLine tsStop), true)
    else
      let st2 := if line = "" then st1 else appendLogMem st1 sid line
      if pollExit i then (st2, false)
      else jobRelay sid externalStop pollExit tsStop rest (i + 1) st2

/-- agent_jobs.run_single_agent_job: clear logs, mark running, announce,
spawn (recording the pid), relay, classify the exit code, record any
exception as an error line, and in the `finally` block finish the session and
blank out `process_pid` / `current_lesson` (the trailing best-effort
`process.kill()` does not touch the store). -/
def runSingleAgentJob (store : AgentSessions) (sid lesson : String) (b : WorkerRun)
    (externalStop pollExit : Nat → Bool) (pid : Nat) (tsLog tsFin : String) :
    AgentSessions :=
  let st1 := clearLogsMem store sid
  let st2 := updateSession st1 sid
    { emptyPatch with running := some true, mode := some "single",
                      current_lesson := some (some lesson) }
  let st3 := appendLogMem st2 sid (startLineSingle tsLog lesson)
  let st4 :=
    match b with
    | .spawnFail err => appendLogMem st3 sid (errorLine tsLog err)
    | .run lines code =>
      let st := updateSession st3 sid { emptyPatch with process_pid := some (some pid) }
      let st := (jobRelay sid externalStop pollExit tsLog lines 0 st).1
      appendLogMem st sid
        (if code = -9 ∨ code = -15 then stoppedByUserLine tsLog else finishedLine tsLog code)
    | .runRaise lines err =>
      let st := updateSession st3 sid { emptyPatch with process_pid := some (some pid) }
      let st := (jobRelay sid externalStop pollExit tsLog lines 0 st).1
      appendLogMem st sid (errorLine tsLog err)
  let st5 := markSessionFinished st4 sid tsFin
  updateSession st5 sid
    { emptyPatch with process_pid := some none, current_lesson := some (some "") }

/-! ## Redis backing (the redis branches of sessions.py)

A Redis instance is modelled as an association list from key to hash, a hash
as an association list from field to string value (decode_responses=True makes
every stored value a string). -/

abbrev RedisHash := List (String × String)
abbrev RedisStore := List (String × RedisHash)

/-- sessions._session_key. -/
def sessionKey (sid : String) : String := "agent:session:" ++ sid

def hashLookup (h : RedisHash) (field : String) : Option String :=
  (h.find? (fun p => p.1 == field)).map (fun p => p.2)

def hashSetField (h : RedisHash) (field value : String) : RedisHash :=
  (field, value) :: h.eraseP (fun p => p.1 == field)

def hashSetMany (h : RedisHash) (fields : List (String × String)) : RedisHash :=
  fields.foldl (fun acc kv => hashSetField acc kv.1 kv.2) h

def storeLookup (st : RedisStore) (key : String) : Option RedisHash :=
  (st.find? (fun p => p.1 == key)).map (fun p => p.2)

/-- Redis HSET with a mapping: writes every given field, creating the hash
when the key is absent. -/
def redisHset (st : RedisStore) (key : String) (fields : List (String × String)) :
    RedisStore :=
  (key, hashSetMany ((storeLookup st key).getD []) fields)
    :: st.eraseP (fun p => p.1 == key)

/-- Redis HGETALL: an absent key yields the empty mapping. -/
def redisHgetall (st : RedisStore) (key : String) : RedisHash :=
  (storeLookup st key).getD []

/-- sessions.append_log, Redis branch: RPUSH the line, then
LTRIM key -LOG_LIMIT -1, which keeps the last LOG_LIMIT entries. -/
def appendLogRedis (logs : List String) (msg : String) : List String :=
  takeLast LOG_LIMIT (logs ++ [msg])

/-- A Python scalar as passed to update_session's keyword arguments. -/
inductive PyVal where
  | str (s : String)
  | boolean (b : Bool)
  | pyNone
  | int (n : Int)
deriving DecidableEq

/-- The value encoding of update_session's Redis branch: None becomes the
empty string, everything else becomes Python str() (dict/list values, which
never occur at the call sites, would be JSON-encoded). -/
def pyStr : PyVal → String
  | .str s => s
  | .boolean b => pythonBoolStr b
  | .pyNone => ""
  | .int n => toString n

/-- sessions.update_session, Redis branch: empty session id returns at once;
an empty mapping is not written; otherwise one HSET with the encoded fields. -/
def updateSessionRedis (st : RedisStore) (sid : String)
    (fields : List (String × PyVal)) : RedisStore :=
  if sid = "" then st
  else
    let mapped := fields.map (fun kv => (kv.1, pyStr kv.2))
    if mapped = [] then st
    else redisHset st (sessionKey sid) mapped

/-- Python str.lower(), written over the character list so that it evaluates
in the kernel. -/
def pyLower (s : String) : String := String.mk (s.data.map Char.toLower)

/-- The nullable-field normalization of sessions._normalize_session: the empty
string, the literal string "None" and an absent field all become None. -/
def normNullable : Option String → Option String
  | none => none
  | some v => if v = "" ∨ v = "None" then none else some v

structure NormalizedSession where
  running : Bool
  stop_requested : Bool
  current_lesson : Option String
  last_run : Option String
  job_id : Option String
  process_pid : Option String
deriving DecidableEq

/-- sessions._normalize_session on a raw hash: booleans are decoded by
lower-casing and comparing with "true" (missing fields default to "false");
the four nullable keys are decoded by normNullable. -/
def normalizeSession (raw : RedisHash) : NormalizedSession :=
  { running := pyLower ((hashLookup raw "running").getD "false") == "true"
    stop_requested := pyLower ((hashLookup raw "stop_requested").getD "false") == "true"
    current_lesson := normNullable (hashLookup raw "current_lesson")
    last_run := normNullable (hashLookup raw "last_run")
    job_id := normNullable (hashLookup raw "job_id")
    process_pid := normNullable (hashLookup raw "process_pid") }

/-- sessions.get_session, Redis branch: empty id gives the empty dict
(modelled as none), as does an absent or empty hash (normalize returns the
input dict unchanged when it is empty); otherwise the normalized record. -/
def getSessionRedis (st : RedisStore) (sid : String) : Option NormalizedSession :=
  if sid = "" then none
  else
    if redisHgetall st (sessionKey sid) = [] then none
    else some (normalizeSession (redisHgetall st (sessionKey sid)))

theorem storeLookup_redisHset_self (st : RedisStore) (key : String)
    (fields : List (String × String)) :
    storeLookup (redisHset st key fields) key
      = some (hashSetMany ((storeLookup st key).getD []) fields) := by
  simp [storeLookup, redisHset, List.find?_cons]

theorem hashLookup_hashSetField_self (h : RedisHash) (field value : String) :
    hashLookup (hashSetField h field value) field = some value := by
  simp [hashLookup, hashSetField, List.find?_cons]

theorem hashSetField_ne_nil (h : RedisHash) (field value : String) :
    hashSetField h field value ≠ [] := by
  simp [hashSetField]

/-! ## Claim C1: admission limit -/

theorem applyCreates_running_le (limit : Nat) (calls : List (String × String × String)) :
    ∀ store : AgentSessions, runningCount store ≤ limit →
      runningCount (applyCreates limit calls store) ≤ limit := by
  induction calls with
  | nil => intro store h; exact h
  | cons c rest ih =>
    intro store h
    simp only [applyCreates, List.foldl_cons] at ih ⊢
    exact ih _ (runningCount_createSession_le h c.1 c.2.1 c.2.2)

/-- C1: starting from any store within the admission limit, no sequence of
create_session calls brings the number of sessions marked running above
MAX_CONCURRENT_AGENTS, and a create_session call is rejected with a 503
CapacityExceeded exactly when the running count is already at or above the
limit.  One call is one atomic step of the model because the source holds
sessions_lock around the whole check-and-register body, so in the serialized
order of two concurrent calls at one free slot only the first can succeed. -/
theorem create_session_respects_admission_limit (limit : Nat)
    (store : AgentSessions) (hinv : runningCount store ≤ limit) :
    (∀ calls : List (String × String × String),
        runningCount (applyCreates limit calls store) ≤ limit)
  ∧ (∀ sid now mode : String,
        createSession limit sid now mode store = .error 503
          ↔ limit ≤ runningCount store) := by
  constructor
  · intro calls; exact applyCreates_running_le limit calls store hinv
  · intro sid now mode
    by_cases h : limit ≤ runningCount store
    · simp [createSession, h]
    · simp [createSession, h]

/-- Witness for C1 at limit 1 on concrete calls. -/
theorem create_session_respects_admission_limit_witness :
    runningCount (applyCreates 1 [("a", "t1", "single"), ("b", "t2", "single")]
        ([] : AgentSessions)) ≤ 1
  ∧ (createSession 1 "c" "t3" "single" ([] : AgentSessions) = .error 503
      ↔ 1 ≤ runningCount ([] : AgentSessions)) :=
  ⟨(create_session_respects_admission_limit 1 [] (by decide)).1 _,
   (create_session_respects_admission_limit 1 [] (by decide)).2 "c" "t3" "single"⟩

/-! ## Claim C10: string encoding round-trip in the Redis backing -/

/-- C10: writing a boolean field through update_session's string encoding and
reading it back through get_session's normalization is the identity, and
writing None for any of the four nullable fields stores the empty string,
which reads back as None. -/
theorem redis_string_encoding_roundtrip (st : RedisStore) (sid : String)
    (hsid : sid ≠ "") (b : Bool) :
    (getSessionRedis (updateSessionRedis st sid [("running", .boolean b)]) sid).map
        (fun n => n.running) = some b
  ∧ (getSessionRedis (updateSessionRedis st sid [("stop_requested", .boolean b)]) sid).map
        (fun n => n.stop_requested) = some b
  ∧ (getSessionRedis (updateSessionRedis st sid [("current_lesson", .pyNone)]) sid).map
        (fun n => n.current_lesson) = some none
  ∧ (getSessionRedis (updateSessionRedis st sid [("last_run", .pyNone)]) sid).map
        (fun n => n.last_run) = some none
  ∧ (getSessionRedis (updateSessionRedis st sid [("job_id", .pyNone)]) sid).map
        (fun n => n.job_id) = some none
  ∧ (getSessionRedis (updateSessionRedis st sid [("process_pid", .pyNone)]) sid).map
        (fun n => n.process_pid) = some none := by
  refine ⟨?_, ?_, ?_, ?_, ?_, ?_⟩ <;>
  · simp [updateSessionRedis, hsid, getSessionRedis, redisHgetall,
      storeLookup_redisHset_self, hashSetMany, normalizeSession,
      hashLookup_hashSetField_self, hashSetField_ne_nil, pyStr, normNullable]
    try cases b <;> decide

/-- Witness for C10 at a concrete id and value. -/
theorem redis_string_encoding_roundtrip_witness :
    (getSessionRedis (updateSessionRedis ([] : RedisStore) "z" [("running", .boolean true)]) "z").map
        (fun n => n.running) = some true
  ∧ (getSessionRedis (updateSessionRedis ([] : RedisStore) "z" [("stop_requested", .boolean true)]) "z").map
        (fun n => n.stop_requested) = some true
  ∧ (getSessionRedis (updateSessionRedis ([] : RedisStore) "z" [("current_lesson", .pyNone)]) "z").map
        (fun n => n.current_lesson) = some none
  ∧ (getSessionRedis (updateSessionRedis ([] : RedisStore) "z" [("last_run", .pyNone)]) "z").map
        (fun n => n.last_run) = some none
  ∧ (getSessionRedis (updateSessionRedis ([] : RedisStore) "z" [("job_id", .pyNone)]) "z").map
        (fun n => n.job_id) = some none
  ∧ (getSessionRedis (updateSessionRedis ([] : RedisStore) "z" [("process_pid", .pyNone)]) "z").map
        (fun n => n.process_pid) = some none :=
  redis_string_encoding_roundtrip [] "z" (by decide) true

/-! ## Presence lemmas: the store operations never drop a session -/

theorem isSome_lookup_modifySession (store : AgentSessions) (sid : String)
    (f : Session → Session) :
    (lookupSession (modifySession store sid f) sid).isSome
      = (lookupSession store sid).isSome := by
  rw [lookupSession_modifySession]
  cases lookupSession store sid <;> simp

theorem isSome_lookup_updateSession (store : AgentSessions) (sid : String)
    (p : SessionPatch) :
    (lookupSession (updateSession store sid p) sid).isSome
      = (lookupSession store sid).isSome := by
  unfold updateSession
  by_cases h : sid = ""
  · simp [h]
  · simp [h, isSome_lookup_modifySession]

theorem isSome_lookup_appendLogMem (store : AgentSessions) (sid msg : String) :
    (lookupSession (appendLogMem store sid msg) sid).isSome
      = (lookupSession store sid).isSome :=
  isSome_lookup_modifySession ..

theorem isSome_lookup_clearLogsMem (store : AgentSessions) (sid : String) :
    (lookupSession (clearLogsMem store sid) sid).isSome
      = (lookupSession store sid).isSome :=
  isSome_lookup_modifySession ..

theorem isSome_lookup_requestStop (store : AgentSessions) (sid : String) :
    (lookupSession (requestStop store sid) sid).isSome
      = (lookupSession store sid).isSome :=
  isSome_lookup_updateSession ..

theorem isSome_lookup_jobRelay (sid : String) (es pe : Nat → Bool) (ts : String)
    (lines : List String) :
    ∀ (i : Nat) (st : AgentSessions),
      (lookupSession (jobRelay sid es pe ts lines i st).1 sid).isSome
        = (lookupSession st sid).isSome := by
  induction lines with
  | nil => intro i st; rfl
  | cons l rest ih =>
    intro i st
    have hst1 : (lookupSession (if es i then requestStop st sid else st) sid).isSome
        = (lookupSession st sid).isSome := by
      by_cases h : es i <;> simp [h, isSome_lookup_requestStop]
    simp only [jobRelay]
    by_cases h2 : isStopRequested (if es i then requestStop st sid else st) sid
    · simp [h2, isSome_lookup_appendLogMem, hst1]
    · have hst2 : (lookupSession
          (if l = "" then (if es i then requestStop st sid else st)
           else appendLogMem (if es i then requestStop st sid else st) sid l) sid).isSome
          = (lookupSession st sid).isSome := by
        by_cases hl : l = "" <;> simp [hl, isSome_lookup_appendLogMem, hst1]
      by_cases h3 : pe i
      · simp [h2, h3, hst2]
      · simp [h2, h3, ih (i + 1) _, hst2]

/-- The finally block of run_single_agent_job finishes whatever session is
present when it runs: running false, process_pid cleared, last_run set. -/
theorem finalize_job_spec (st' : AgentSessions) (sid tsFin : String)
    (hsid : sid ≠ "") (h : (lookupSession st' sid).isSome = true) :
    ∃ s3, lookupSession
        (updateSession (markSessionFinished st' sid tsFin) sid
          { emptyPatch with process_pid := some none,
                            current_lesson := some (some "") }) sid = some s3
      ∧ s3.running = false ∧ s3.process_pid = none ∧ s3.last_run = some tsFin := by
  obtain ⟨s0, hs0⟩ := Option.isSome_iff_exists.mp h
  rw [markSessionFinished, lookupSession_updateSession _ _ _ hsid,
    lookupSession_updateSession _ _ _ hsid, hs0]
  refine ⟨_, rfl, ?_, ?_, ?_⟩ <;> simp [applyPatch, emptyPatch]

/-- A relay run in which the poll check never fires and every line is
nonempty (readline only ever yields nonempty strings before EOF) is a fold of
bounded appends. -/
theorem relaySingle_no_poll (lines : List String) (h : ∀ l ∈ lines, l ≠ "") :
    ∀ (i : Nat) (logs : List String),
      relaySingle (fun _ => false) lines i logs
        = lines.foldl (appendTrim 200) logs := by
  induction lines with
  | nil => intro i logs; rfl
  | cons l rest ih =>
    intro i logs
    have hl : l ≠ "" := h l (by simp)
    simp only [relaySingle, hl, if_neg, if_false, Bool.false_eq_true,
      List.foldl_cons]
    exact ih (fun x hx => h x (by simp [hx])) (i + 1) _

/-! ## Counterexample material for C3, C4, C5, C8, C9 -/

/-- A freshly created session whose runner has just spawned process 5. -/
def exRunningSession : Session :=
  { newSessionData "t0" "single" with process := some 5 }

/-- A running session on which request_stop has taken effect. -/
def exStopRequestedSession : Session :=
  { newSessionData "t0" "single" with stop_requested := true }

/-- C3 counterexample: with 200 worker output lines the embedded single-mode
runner ends with 201 log lines — the relay loop trims to 200, but the final
exit-status line is appended without trimming — so the claimed 200-line bound
for single-mode jobs is exceeded. -/
theorem single_log_bound_exceeded_counterexample :
    (lookupSession
        (runSingleAgent [("s1", newSessionData "t0" "single")] "s1" "42"
          (.run (List.replicate 200 "x") 0) (fun _ => false) 7 "ts" "tf") "s1").map
        (fun s => s.logs.length) = some 201
  ∧ ¬ ((lookupSession
        (runSingleAgent [("s1", newSessionData "t0" "single")] "s1" "42"
          (.run (List.replicate 200 "x") 0) (fun _ => false) 7 "ts" "tf") "s1").map
        (fun s => s.logs.length) = some 200) := by
  have hne : ∀ l ∈ List.replicate 200 "x", l ≠ "" := by
    intro l hl
    rw [List.eq_of_mem_replicate hl]
    decide
  have hrun : runSingleAgent [("s1", newSessionData "t0" "single")] "s1" "42"
      (.run (List.replicate 200 "x") 0) (fun _ => false) 7 "ts" "tf"
      = dictSet [("s1", newSessionData "t0" "single")] "s1"
          (finalizeRun "tf" (singleBody "42" (.run (List.replicate 200 "x") 0)
            (fun _ => false) 7 "ts" (newSessionData "t0" "single"))) := rfl
  have h201 : (lookupSession
      (runSingleAgent [("s1", newSessionData "t0" "single")] "s1" "42"
        (.run (List.replicate 200 "x") 0) (fun _ => false) 7 "ts" "tf") "s1").map
      (fun s => s.logs.length) = some 201 := by
    rw [hrun, lookupSession_dictSet, Option.map_some']
    have hbody : (finalizeRun "tf" (singleBody "42" (.run (List.replicate 200 "x") 0)
        (fun _ => false) 7 "ts" (newSessionData "t0" "single"))).logs
        = takeLast 200 ([startLineSingle "ts" "42"] ++ List.replicate 200 "x")
            ++ [finishedLine "ts" 0] := by
      simp only [finalizeRun, singleBody, newSessionData]
      rw [relaySingle_no_poll _ hne, foldl_appendTrim 200 _ _ (by simp)]
      simp
    rw [hbody]
    simp only [List.length_append, length_takeLast, List.length_replicate,
      List.length_cons, List.length_nil]
    rfl
  refine ⟨h201, fun habs => ?_⟩
  rw [h201] at habs
  exact absurd (Option.some.inj habs) (by decide)

/-- C4 counterexample: stopping a running session with a live process never
sets the cooperative stop_requested flag, and the forceful terminate is the
very first event of the stop call, before the observability log line. -/
theorem stop_sets_no_flag_counterexample :
    (stopAgentBySession [("s1", exRunningSession)] "s1" true false "u1" "u2"
      = .ok ("Agent stopped",
          [("s1", { exRunningSession with
                      logs := [stoppingLine "u1", forceKilledLine "u2"],
                      running := false, process := none })],
          [StopEvent.terminate, StopEvent.logAppend (stoppingLine "u1"),
           StopEvent.graceSleep, StopEvent.kill,
           StopEvent.logAppend (forceKilledLine "u2")]))
  ∧ StopEvent.setStopRequested ∉
      [StopEvent.terminate, StopEvent.logAppend (stoppingLine "u1"),
       StopEvent.graceSleep, StopEvent.kill,
       StopEvent.logAppend (forceKilledLine "u2")] :=
  ⟨by rfl, by decide⟩

/-- C5 counterexample: mark_session_finished resets stop_requested to false,
so the flag does not remain true for the rest of the session's lifetime. -/
theorem finalize_clears_stop_flag_counterexample :
    (lookupSession (markSessionFinished [("s1", exStopRequestedSession)] "s1" "tf") "s1").map
        (fun s => s.stop_requested) = some false
  ∧ ¬ ((lookupSession (markSessionFinished [("s1", exStopRequestedSession)] "s1" "tf") "s1").map
        (fun s => s.stop_requested) = some true) := by
  constructor <;> decide

/-- C8 counterexample: with 3 worker lines and exit code 0 the final log has
5 lines (a start announcement precedes the worker lines), not the claimed 4. -/
theorem happy_path_log_count_counterexample :
    (lookupSession
        (runSingleAgent [("s1", newSessionData "t0" "single")] "s1" "42"
          (.run ["a", "b", "c"] 0) (fun _ => false) 7 "ts" "tf") "s1").map
        (fun s => s.logs.length) = some 5
  ∧ ¬ ((lookupSession
        (runSingleAgent [("s1", newSessionData "t0" "single")] "s1" "42"
          (.run ["a", "b", "c"] 0) (fun _ => false) 7 "ts" "tf") "s1").map
        (fun s => s.logs.length) = some 4) := by
  constructor <;> decide

/-- C9 counterexample: in the Redis backing, update_session on an id with no
record writes the fields anyway — HSET creates the hash — so the store does
not stay unchanged on an unknown id. -/
theorem redis_update_unknown_id_counterexample :
    updateSessionRedis ([] : RedisStore) "deadbeef" [("running", PyVal.boolean false)]
      = [("agent:session:deadbeef", [("running", "False")])]
  ∧ updateSessionRedis ([] : RedisStore) "deadbeef" [("running", PyVal.boolean false)]
      ≠ ([] : RedisStore) := by
  constructor <;> decide

/-! ## Claim C2: finalization on every exit path -/

/-- C2: on every exit path of a runner run — normal worker exit, worker
stopped (signal exit codes), and any exception raised inside the supervision
loop (all covered by the WorkerRun oracle) — the finally block finishes the
session: running is false, the process handle is cleared, and last_run holds
the finish timestamp.  Holds for the embedded single runner, for the embedded
batch runner when its id list parses nonempty (an empty list returns before
the try/finally is entered), and for the queue job. -/
theorem runner_finalizes_on_every_exit_path
    (store : AgentSessions) (sid lesson lessonIds : String) (skip : Bool)
    (s : Session) (hs : lookupSession store sid = some s) (hsid : sid ≠ "")
    (b : WorkerRun) (extractLabel : String → Option String)
    (externalStop pollExit : Nat → Bool) (pid : Nat) (tsLog tsFin : String)
    (hids : parseLessonIds lessonIds ≠ []) :
    (∃ s1, lookupSession
        (runSingleAgent store sid lesson b pollExit pid tsLog tsFin) sid = some s1
      ∧ s1.running = false ∧ s1.process = none ∧ s1.last_run = some tsFin)
  ∧ (∃ s2, lookupSession
        (runBatchAgent store sid lessonIds skip b extractLabel pollExit pid tsLog tsFin)
          sid = some s2
      ∧ s2.running = false ∧ s2.process = none ∧ s2.last_run = some tsFin)
  ∧ (∃ s3, lookupSession
        (runSingleAgentJob store sid lesson b externalStop pollExit pid tsLog tsFin)
          sid = some s3
      ∧ s3.running = false ∧ s3.process_pid = none ∧ s3.last_run = some tsFin) := by
  refine ⟨?_, ?_, ?_⟩
  · refine ⟨finalizeRun tsFin (singleBody lesson b pollExit pid tsLog s),
      ?_, ?_, ?_, ?_⟩
    · simp only [runSingleAgent, hs, lookupSession_dictSet]
    · simp [finalizeRun]
    · simp [finalizeRun]
    · simp [finalizeRun]
  · refine ⟨finalizeRun tsFin
      (batchBody (parseLessonIds lessonIds) skip b extractLabel pollExit pid tsLog s),
      ?_, ?_, ?_, ?_⟩
    · simp only [runBatchAgent, hs, hids, if_neg, if_false, lookupSession_dictSet]
    · simp [finalizeRun]
    · simp [finalizeRun]
    · simp [finalizeRun]
  · refine finalize_job_spec _ sid tsFin hsid ?_
    cases b <;>
      simp [isSome_lookup_appendLogMem, isSome_lookup_updateSession,
        isSome_lookup_clearLogsMem, isSome_lookup_jobRelay, hs]

/-- Witness for C2: a concrete run whose worker raises mid-relay is still
finalized in all three runners. -/
theorem runner_finalizes_on_every_exit_path_witness :
    (∃ s1, lookupSession
        (runSingleAgent [("s1", newSessionData "t0" "single")] "s1" "42"
          (.runRaise ["a"] "boom") (fun _ => false) 7 "ts" "tf") "s1" = some s1
      ∧ s1.running = false ∧ s1.process = none ∧ s1.last_run = some "tf")
  ∧ (∃ s2, lookupSession
        (runBatchAgent [("s1", newSessionData "t0" "single")] "s1" "9843,9845" false
          (.runRaise ["a"] "boom") (fun _ => none) (fun _ => false) 7 "ts" "tf")
          "s1" = some s2
      ∧ s2.running = false ∧ s2.process = none ∧ s2.last_run = some "tf")
  ∧ (∃ s3, lookupSession
        (runSingleAgentJob [("s1", newSessionData "t0" "single")] "s1" "42"
          (.runRaise ["a"] "boom") (fun _ => false) (fun _ => false) 7 "ts" "tf")
          "s1" = some s3
      ∧ s3.running = false ∧ s3.process_pid = none ∧ s3.last_run = some "tf") :=
  runner_finalizes_on_every_exit_path
    [("s1", newSessionData "t0" "single")] "s1" "42" "9843,9845" false
    (newSessionData "t0" "single") (by rfl) (by decide)
    (.runRaise ["a"] "boom") (fun _ => none) (fun _ => false) (fun _ => false)
    7 "ts" "tf" (by decide)

/-! ## Claim C3 (amended): ring-buffer log semantics -/

theorem foldl_appendLogMem (sid : String) (msgs : List String) :
    ∀ (store : AgentSessions) (s : Session),
      lookupSession store sid = some s → s.logs.length ≤ LOG_LIMIT →
      lookupSession (msgs.foldl (fun st m => appendLogMem st sid m) store) sid
        = some { s with logs := takeLast LOG_LIMIT (s.logs ++ msgs) } := by
  induction msgs with
  | nil =>
    intro store s hs hl
    simp [hs, takeLast_of_length_le hl]
  | cons m rest ih =>
    intro store s hs hl
    have hstep : lookupSession (appendLogMem store sid m) sid
        = some { s with logs := appendTrim LOG_LIMIT s.logs m } := by
      rw [lookupSession_appendLogMem, hs]
      rfl
    have hlen2 : ({ s with logs := appendTrim LOG_LIMIT s.logs m }).logs.length
        ≤ LOG_LIMIT := by
      simp only [appendTrim_eq_takeLast, length_takeLast]
      omega
    have hrec := ih (appendLogMem store sid m) _ hstep hlen2
    rw [List.foldl_cons, hrec]
    simp only [appendTrim_eq_takeLast, takeLast_takeLast_append]
    simp

theorem foldl_appendLogRedis (msgs : List String) :
    ∀ init : List String, init.length ≤ LOG_LIMIT →
      msgs.foldl appendLogRedis init = takeLast LOG_LIMIT (init ++ msgs) := by
  induction msgs with
  | nil => intro init h; simp [takeLast_of_length_le h]
  | cons m rest ih =>
    intro init h
    have hlen : (appendLogRedis init m).length ≤ LOG_LIMIT := by
      simp only [appendLogRedis, length_takeLast]
      omega
    rw [List.foldl_cons, ih _ hlen]
    simp only [appendLogRedis, takeLast_takeLast_append]
    simp

/-- C3 (amended): the store-level append_log keeps one mode-independent
500-line ring buffer in both backings — after any sequence of appends the
buffer is exactly the most recent 500 lines, oldest dropped first, newest
last — while the embedded single-mode relay trims worker lines to the most
recent 200 and the runner then appends one untrimmed exit-status line, so the
final buffer is the most recent 200 of the start and worker lines followed by
the status line, at most 201 lines. -/
theorem log_ring_buffer_semantics
    (store : AgentSessions) (sid : String) (s : Session)
    (hs : lookupSession store sid = some s) (hlen : s.logs.length ≤ LOG_LIMIT)
    (msgs : List String) (init : List String) (hinit : init.length ≤ LOG_LIMIT)
    (lines : List String) (hlines : ∀ l ∈ lines, l ≠ "")
    (lesson : String) (pid : Nat) (code : Int) (tsLog tsFin : String) :
    lookupSession (msgs.foldl (fun st m => appendLogMem st sid m) store) sid
      = some { s with logs := takeLast LOG_LIMIT (s.logs ++ msgs) }
  ∧ msgs.foldl appendLogRedis init = takeLast LOG_LIMIT (init ++ msgs)
  ∧ (∃ s1, lookupSession (runSingleAgent store sid lesson (.run lines code)
        (fun _ => false) pid tsLog tsFin) sid = some s1
      ∧ s1.logs = takeLast 200 (startLineSingle tsLog lesson :: lines)
          ++ [if code = -9 ∨ code = -15 then stoppedByUserLine tsLog
              else finishedLine tsLog code]
      ∧ s1.logs.length ≤ 201) := by
  refine ⟨foldl_appendLogMem sid msgs store s hs hlen,
    foldl_appendLogRedis msgs init hinit, ?_⟩
  refine ⟨finalizeRun tsFin (singleBody lesson (.run lines code)
    (fun _ => false) pid tsLog s), ?_, ?_, ?_⟩
  · simp only [runSingleAgent, hs, lookupSession_dictSet]
  · simp only [finalizeRun, singleBody]
    rw [relaySingle_no_poll _ hlines, foldl_appendTrim 200 _ _ (by simp)]
    simp
  · simp only [finalizeRun, singleBody]
    rw [relaySingle_no_poll _ hlines, foldl_appendTrim 200 _ _ (by simp)]
    simp only [List.length_append, length_takeLast, List.length_cons,
      List.length_nil, List.length_singleton]
    omega

/-- Witness for C3 (amended) on concrete lists. -/
theorem log_ring_buffer_semantics_witness :
    lookupSession (["a", "b"].foldl
        (fun st m => appendLogMem st "s1" m) [("s1", newSessionData "t0" "single")]) "s1"
      = some { newSessionData "t0" "single" with
               logs := takeLast LOG_LIMIT ((newSessionData "t0" "single").logs ++ ["a", "b"]) }
  ∧ ["a", "b"].foldl appendLogRedis ["z"] = takeLast LOG_LIMIT (["z"] ++ ["a", "b"])
  ∧ (∃ s1, lookupSession (runSingleAgent [("s1", newSessionData "t0" "single")] "s1" "42"
        (.run ["x"] 0) (fun _ => false) 7 "ts" "tf") "s1" = some s1
      ∧ s1.logs = takeLast 200 (startLineSingle "ts" "42" :: ["x"])
          ++ [if (0 : Int) = -9 ∨ (0 : Int) = -15 then stoppedByUserLine "ts"
              else finishedLine "ts" 0]
      ∧ s1.logs.length ≤ 201) :=
  log_ring_buffer_semantics [("s1", newSessionData "t0" "single")] "s1"
    (newSessionData "t0" "single") (by rfl) (by decide) ["a", "b"] ["z"] (by decide)
    ["x"] (by decide) "42" 7 0 "ts" "tf"

/-! ## Claim C4 (amended): stop ordering and the cooperative flag -/

/-- C4 (amended): stopping a running embedded job with a live process applies
the forceful terminate first and only then appends the observability
"Stopping agent..." line; if the process survives the grace period, kill is
applied and then the "Force killed agent" line is appended; no event of this
path sets the cooperative stop_requested flag.  The queue worker's relay, on
seeing an already-set flag, appends the stopping line and then terminates
(breaking the relay without consuming further lines). -/
theorem stop_terminate_before_log_and_no_flag
    (store : AgentSessions) (sid : String) (s : Session) (p : Nat)
    (hs : lookupSession store sid = some s) (hr : s.running = true)
    (hp : s.process = some p) (alive : Bool) (ts1 ts2 : String) :
    (stopAgentBySession store sid alive false ts1 ts2
      = .ok ("Agent stopped",
          dictSet store sid
            { s with
              logs := ((s.logs ++ [stoppingLine ts1])
                ++ (if alive then [forceKilledLine ts2] else []))
              running := false
              process := none },
          [StopEvent.terminate, StopEvent.logAppend (stoppingLine ts1),
           StopEvent.graceSleep]
            ++ (if alive then [StopEvent.kill,
                  StopEvent.logAppend (forceKilledLine ts2)] else [])))
  ∧ StopEvent.setStopRequested ∉
      ([StopEvent.terminate, StopEvent.logAppend (stoppingLine ts1),
        StopEvent.graceSleep]
        ++ (if alive then [StopEvent.kill,
              StopEvent.logAppend (forceKilledLine ts2)] else []))
  ∧ (∀ (st' : AgentSessions) (es pe : Nat → Bool) (ts : String)
        (line : String) (rest : List String) (i : Nat),
      isStopRequested st' sid = true → es i = false →
      jobRelay sid es pe ts (line :: rest) i st'
        = (appendLogMem st' sid (stoppingLine ts), true)) := by
  refine ⟨?_, ?_, ?_⟩
  · cases alive <;> simp [stopAgentBySession, hs, hr, hp]
  · cases alive <;> simp
  · intro st' es pe ts line rest i hflag hes
    simp [jobRelay, hes, hflag]

/-- Witness for C4 (amended) on a concrete running session. -/
theorem stop_terminate_before_log_and_no_flag_witness :
    (stopAgentBySession [("s1", exRunningSession)] "s1" true false "u1" "u2"
      = .ok ("Agent stopped",
          dictSet [("s1", exRunningSession)] "s1"
            { exRunningSession with
              logs := ((exRunningSession.logs ++ [stoppingLine "u1"])
                ++ (if true then [forceKilledLine "u2"] else []))
              running := false
              process := none },
          [StopEvent.terminate, StopEvent.logAppend (stoppingLine "u1"),
           StopEvent.graceSleep]
            ++ (if true then [StopEvent.kill,
                  StopEvent.logAppend (forceKilledLine "u2")] else [])))
  ∧ StopEvent.setStopRequested ∉
      ([StopEvent.terminate, StopEvent.logAppend (stoppingLine "u1"),
        StopEvent.graceSleep]
        ++ (if true then [StopEvent.kill,
              StopEvent.logAppend (forceKilledLine "u2")] else []))
  ∧ (∀ (st' : AgentSessions) (es pe : Nat → Bool) (ts : String)
        (line : String) (rest : List String) (i : Nat),
      isStopRequested st' "s1" = true → es i = false →
      jobRelay "s1" es pe ts (line :: rest) i st'
        = (appendLogMem st' "s1" (stoppingLine ts), true)) :=
  stop_terminate_before_log_and_no_flag [("s1", exRunningSession)] "s1"
    exRunningSession 5 (by rfl) (by rfl) (by rfl) true "u1" "u2"

/-! ## Claim C5 (amended): the stop flag until finalization -/

/-- C5 (amended): while a session is live the stop_requested flag is only
ever set — request_stop sets it to true, and log appends, log clears, job-id
updates and any update_session call that does not pass the stop_requested
keyword all preserve it — but finalization clears it: mark_session_finished
passes stop_requested=False together with running=False. -/
theorem stop_flag_set_once_until_finalized
    (store : AgentSessions) (sid : String) (s : Session)
    (hs : lookupSession store sid = some s) (hsid : sid ≠ "")
    (msg jid now : String) :
    (lookupSession (requestStop store sid) sid).map (fun x => x.stop_requested)
      = some true
  ∧ (lookupSession (appendLogMem store sid msg) sid).map (fun x => x.stop_requested)
      = some s.stop_requested
  ∧ (lookupSession (clearLogsMem store sid) sid).map (fun x => x.stop_requested)
      = some s.stop_requested
  ∧ (lookupSession (setJobId store sid jid) sid).map (fun x => x.stop_requested)
      = some s.stop_requested
  ∧ (∀ p : SessionPatch, p.stop_requested = none →
      (lookupSession (updateSession store sid p) sid).map (fun x => x.stop_requested)
        = some s.stop_requested)
  ∧ (lookupSession (markSessionFinished store sid now) sid).map
        (fun x => x.stop_requested) = some false := by
  refine ⟨?_, ?_, ?_, ?_, ?_, ?_⟩
  · rw [requestStop, lookupSession_updateSession _ _ _ hsid, hs]
    simp [applyPatch, emptyPatch]
  · rw [lookupSession_appendLogMem, hs]
    rfl
  · rw [clearLogsMem, lookupSession_modifySession, hs]
    rfl
  · rw [setJobId, lookupSession_updateSession _ _ _ hsid, hs]
    simp [applyPatch, emptyPatch]
  · intro p hp
    rw [lookupSession_updateSession _ _ _ hsid, hs]
    simp [applyPatch, hp]
  · rw [markSessionFinished, lookupSession_updateSession _ _ _ hsid, hs]
    simp [applyPatch, emptyPatch]

/-- Witness for C5 (amended) on a concrete stop-requested session. -/
theorem stop_flag_set_once_until_finalized_witness :
    (lookupSession (requestStop [("s1", exStopRequestedSession)] "s1") "s1").map
        (fun x => x.stop_requested) = some true
  ∧ (lookupSession (appendLogMem [("s1", exStopRequestedSession)] "s1" "hello") "s1").map
        (fun x => x.stop_requested) = some exStopRequestedSession.stop_requested
  ∧ (lookupSession (clearLogsMem [("s1", exStopRequestedSession)] "s1") "s1").map
        (fun x => x.stop_requested) = some exStopRequestedSession.stop_requested
  ∧ (lookupSession (setJobId [("s1", exStopRequestedSession)] "s1" "j1") "s1").map
        (fun x => x.stop_requested) = some exStopRequestedSession.stop_requested
  ∧ (∀ p : SessionPatch, p.stop_requested = none →
      (lookupSession (updateSession [("s1", exStopRequestedSession)] "s1" p) "s1").map
        (fun x => x.stop_requested) = some exStopRequestedSession.stop_requested)
  ∧ (lookupSession (markSessionFinished [("s1", exStopRequestedSession)] "s1" "tf") "s1").map
        (fun x => x.stop_requested) = some false :=
  stop_flag_set_once_until_finalized [("s1", exStopRequestedSession)] "s1"
    exStopRequestedSession (by rfl) (by decide) "hello" "j1" "tf"

/-! ## Claim C6: idempotent stop -/

/-- C6: after any successful stop call the session's running flag is false,
so a second stop on the same session (with any oracle values) returns success
immediately, leaves the store exactly unchanged, and produces no events at
all — in particular no second terminate, kill or "Force killed" log line. -/
theorem stop_idempotent_second_call
    (store : AgentSessions) (sid : String) (a1 t1 a2 t2 : Bool)
    (ts1 ts2 ts3 ts4 m : String) (st1 : AgentSessions) (tr1 : List StopEvent)
    (h : stopAgentBySession store sid a1 t1 ts1 ts2 = .ok (m, st1, tr1)) :
    stopAgentBySession st1 sid a2 t2 ts3 ts4 = .ok ("Agent stopped", st1, []) := by
  cases hl : lookupSession store sid with
  | none =>
    simp [stopAgentBySession, hl] at h
  | some s =>
    by_cases hr : s.running = false
    · simp [stopAgentBySession, hl, hr] at h
      obtain ⟨hm, hst, htr⟩ := h
      subst hst
      simp [stopAgentBySession, hl, hr]
    · cases hp : s.process with
      | none =>
        simp [stopAgentBySession, hl, hr, hp] at h
        obtain ⟨hm, hst, htr⟩ := h
        subst hst
        simp [stopAgentBySession, lookupSession_dictSet]
      | some p =>
        by_cases ht : t1 = true
        · simp [stopAgentBySession, hl, hr, hp, ht] at h
        · simp [stopAgentBySession, hl, hr, hp, ht] at h
          obtain ⟨hm, hst, htr⟩ := h
          subst hst
          simp [stopAgentBySession, lookupSession_dictSet]

/-- Witness for C6: a concrete force-killed first stop followed by a second
stop that is a success-returning no-op. -/
theorem stop_idempotent_second_call_witness :
    stopAgentBySession
      [("s1", { exRunningSession with
                logs := [stoppingLine "u1", forceKilledLine "u2"]
                running := false
                process := none })]
      "s1" false false "u3" "u4"
      = .ok ("Agent stopped",
          [("s1", { exRunningSession with
                    logs := [stoppingLine "u1", forceKilledLine "u2"]
                    running := false
                    process := none })], []) :=
  stop_idempotent_second_call [("s1", exRunningSession)] "s1" true false false false
    "u1" "u2" "u3" "u4" "Agent stopped"
    [("s1", { exRunningSession with
              logs := [stoppingLine "u1", forceKilledLine "u2"]
              running := false
              process := none })]
    [StopEvent.terminate, StopEvent.logAppend (stoppingLine "u1"),
     StopEvent.graceSleep, StopEvent.kill, StopEvent.logAppend (forceKilledLine "u2")]
    (by rfl)

/-! ## Claim C7: strict stop on unknown ids, lenient reads -/

/-- C7: stop on an id the store has no record of fails with 404 NotFound,
stop on an existing finished session returns success; get_status returns the
all-false/empty default for an empty or unknown id instead of raising, and
get_logs returns the empty list for an empty or unknown id. -/
theorem stop_unknown_404_and_lenient_reads
    (store : AgentSessions) (sid : String) (hsid : sid ≠ "")
    (hnone : lookupSession store sid = none)
    (store2 : AgentSessions) (sid2 : String) (s2 : Session)
    (hs2 : lookupSession store2 sid2 = some s2) (hfin : s2.running = false)
    (alive traises : Bool) (ts1 ts2 : String) :
    stopAgentBySession store sid alive traises ts1 ts2 = .error 404
  ∧ stopAgentBySession store2 sid2 alive traises ts1 ts2
      = .ok ("Agent stopped", store2, [])
  ∧ getAgentStatus store "" = { running := false, current_lesson := none
                                last_run := none, log_count := 0, session_id := none }
  ∧ getAgentStatus store sid = { running := false, current_lesson := none
                                 last_run := none, log_count := 0
                                 session_id := some sid }
  ∧ getAgentLogs store "" = []
  ∧ getAgentLogs store sid = [] := by
  refine ⟨?_, ?_, ?_, ?_, ?_, ?_⟩
  · simp [stopAgentBySession, hnone]
  · simp [stopAgentBySession, hs2, hfin]
  · simp [getAgentStatus]
  · simp [getAgentStatus, hsid, hnone]
  · simp [getAgentLogs]
  · simp [getAgentLogs, hsid, hnone]

/-- A session that has finished its run. -/
def exFinishedSession : Session :=
  { newSessionData "t0" "single" with running := false, last_run := some "t1" }

/-- Witness for C7 on a concrete store. -/
theorem stop_unknown_404_and_lenient_reads_witness :
    stopAgentBySession ([] : AgentSessions) "zz" true false "u1" "u2" = .error 404
  ∧ stopAgentBySession [("s1", exFinishedSession)] "s1" true false "u1" "u2"
      = .ok ("Agent stopped", [("s1", exFinishedSession)], [])
  ∧ getAgentStatus ([] : AgentSessions) ""
      = { running := false, current_lesson := none
          last_run := none, log_count := 0, session_id := none }
  ∧ getAgentStatus ([] : AgentSessions) "zz"
      = { running := false, current_lesson := none
          last_run := none, log_count := 0, session_id := some "zz" }
  ∧ getAgentLogs ([] : AgentSessions) "" = []
  ∧ getAgentLogs ([] : AgentSessions) "zz" = [] :=
  stop_unknown_404_and_lenient_reads [] "zz" (by decide) (by rfl)
    [("s1", exFinishedSession)] "s1" exFinishedSession (by rfl) (by rfl)
    true false "u1" "u2"

/-! ## Claim C8 (amended): the happy path -/

/-- C8 (amended): with a worker that emits exactly 3 nonempty lines and exits
with code 0 (and no early poll break), the session's final log is exactly 5
lines — the start announcement, the 3 worker lines in order, and the trailing
"finished with exit code 0" line — and status afterwards shows running=false
with log_count=5. -/
theorem happy_path_five_log_lines
    (store : AgentSessions) (sid lesson : String) (s : Session)
    (hs : lookupSession store sid = some s) (hsid : sid ≠ "")
    (l1 l2 l3 : String) (h1 : l1 ≠ "") (h2 : l2 ≠ "") (h3 : l3 ≠ "")
    (pid : Nat) (tsLog tsFin : String) :
    (lookupSession (runSingleAgent store sid lesson (.run [l1, l2, l3] 0)
        (fun _ => false) pid tsLog tsFin) sid).map (fun x => x.logs)
      = some [startLineSingle tsLog lesson, l1, l2, l3, finishedLine tsLog 0]
  ∧ getAgentStatus (runSingleAgent store sid lesson (.run [l1, l2, l3] 0)
        (fun _ => false) pid tsLog tsFin) sid
      = { running := false, current_lesson := some lesson, last_run := some tsFin
          log_count := 5, session_id := some sid } := by
  have hrun : runSingleAgent store sid lesson (.run [l1, l2, l3] 0)
      (fun _ => false) pid tsLog tsFin
      = dictSet store sid (finalizeRun tsFin (singleBody lesson (.run [l1, l2, l3] 0)
          (fun _ => false) pid tsLog s)) := by
    simp [runSingleAgent, hs]
  have hsess : finalizeRun tsFin (singleBody lesson (.run [l1, l2, l3] 0)
      (fun _ => false) pid tsLog s)
      = { running := false, current_lesson := some lesson, mode := "single"
          last_run := some tsFin, created_at := s.created_at, job_id := s.job_id
          stop_requested := s.stop_requested
          logs := [startLineSingle tsLog lesson, l1, l2, l3, finishedLine tsLog 0]
          process := none, process_pid := s.process_pid } := by
    simp [finalizeRun, singleBody, relaySingle, h1, h2, h3, appendTrim]
  refine ⟨?_, ?_⟩
  · rw [hrun, lookupSession_dictSet, Option.map_some', hsess]
  · rw [hrun]
    simp [getAgentStatus, hsid, lookupSession_dictSet, hsess]

/-- Witness for C8 (amended) on concrete lines. -/
theorem happy_path_five_log_lines_witness :
    (lookupSession (runSingleAgent [("s1", newSessionData "t0" "single")] "s1" "42"
        (.run ["a", "b", "c"] 0) (fun _ => false) 7 "ts" "tf") "s1").map
        (fun x => x.logs)
      = some [startLineSingle "ts" "42", "a", "b", "c", finishedLine "ts" 0]
  ∧ getAgentStatus (runSingleAgent [("s1", newSessionData "t0" "single")] "s1" "42"
        (.run ["a", "b", "c"] 0) (fun _ => false) 7 "ts" "tf") "s1"
      = { running := false, current_lesson := some "42", last_run := some "tf"
          log_count := 5, session_id := some "s1" } :=
  happy_path_five_log_lines [("s1", newSessionData "t0" "single")] "s1" "42"
    (newSessionData "t0" "single") (by rfl) (by decide) "a" "b" "c"
    (by decide) (by decide) (by decide) 7 "ts" "tf"

/-! ## Claim C9 (amended): update with an unknown id -/

/-- C9 (amended): in the in-memory backing, update_session with an unknown
session id (or an empty id) is a strict no-op: the store is returned exactly
unchanged and no record is created.  The Redis backing also returns normally
and is a no-op for the empty id or an empty field set, but with a nonempty
field set it writes the encoded fields unconditionally — HSET merges into (or
creates) the hash at the session key whether or not a record existed. -/
theorem update_session_unknown_id_contract
    (store : AgentSessions) (sid : String) (p : SessionPatch)
    (hnone : lookupSession store sid = none)
    (rst : RedisStore) (rsid : String) (hrsid : rsid ≠ "")
    (fields : List (String × PyVal)) (hf : fields ≠ []) :
    updateSession store sid p = store
  ∧ (∀ q : SessionPatch, updateSession store "" q = store)
  ∧ updateSessionRedis rst "" fields = rst
  ∧ redisHgetall (updateSessionRedis rst rsid fields) (sessionKey rsid)
      = hashSetMany (redisHgetall rst (sessionKey rsid))
          (fields.map (fun kv => (kv.1, pyStr kv.2))) := by
  refine ⟨?_, ?_, ?_, ?_⟩
  · by_cases h : sid = ""
    · simp [updateSession, h]
    · simp [updateSession, h, modifySession, hnone]
  · intro q
    simp [updateSession]
  · simp [updateSessionRedis]
  · simp [updateSessionRedis, hrsid, hf, redisHgetall, storeLookup_redisHset_self]

/-- Witness for C9 (amended) on a concrete unknown id. -/
theorem update_session_unknown_id_contract_witness :
    updateSession ([] : AgentSessions) "zz" emptyPatch = ([] : AgentSessions)
  ∧ (∀ q : SessionPatch, updateSession ([] : AgentSessions) "" q = ([] : AgentSessions))
  ∧ updateSessionRedis ([] : RedisStore) "" [("running", PyVal.boolean true)]
      = ([] : RedisStore)
  ∧ redisHgetall (updateSessionRedis ([] : RedisStore) "zz"
        [("running", PyVal.boolean true)]) (sessionKey "zz")
      = hashSetMany (redisHgetall ([] : RedisStore) (sessionKey "zz"))
          ([("running", PyVal.boolean true)].map (fun kv => (kv.1, pyStr kv.2))) :=
  update_session_unknown_id_contract [] "zz" emptyPatch (by rfl)
    [] "zz" (by decide) [("running", PyVal.boolean true)] (by decide)

end KBTU
